import Mathlib

/-
Verification of the density/current-field computation core of the SMASH
transport code (density.cc). Machine doubles are modelled as exact
rationals; the transcendental library functions std::exp and std::sqrt,
which the core merely calls, are passed in as explicit function
parameters `expf` and `sqrtf`, so every statement is quantified over
them unless it pins them to a concrete function.
-/

namespace Smash

/-- Modelled from the spec: the numerical epsilon `really_small` from
constants.h (not among the sources), the threshold below which weights
and masses are treated as zero. Its value in the code is 1e-12. -/
def really_small : ℚ := 1 / 1000000000000

/-- Modelled from the spec: the 3-vector type from threevector.h (not
among the sources); components are exact rationals. -/
structure ThreeVector where
  x1 : ℚ
  x2 : ℚ
  x3 : ℚ
deriving DecidableEq

def ThreeVector.zero : ThreeVector := ⟨0, 0, 0⟩

def ThreeVector.add (a b : ThreeVector) : ThreeVector :=
  ⟨a.x1 + b.x1, a.x2 + b.x2, a.x3 + b.x3⟩

def ThreeVector.sub (a b : ThreeVector) : ThreeVector :=
  ⟨a.x1 - b.x1, a.x2 - b.x2, a.x3 - b.x3⟩

/-- Scaling of a 3-vector by a scalar (operator* in the code). -/
def ThreeVector.smul (a : ThreeVector) (c : ℚ) : ThreeVector :=
  ⟨a.x1 * c, a.x2 * c, a.x3 * c⟩

/-- Dot product (operator* between two 3-vectors in the code). -/
def ThreeVector.dot (a b : ThreeVector) : ℚ :=
  a.x1 * b.x1 + a.x2 * b.x2 + a.x3 * b.x3

def ThreeVector.sqr (a : ThreeVector) : ℚ := a.dot a

/-- Modelled from the spec: the Minkowski 4-vector type from
fourvector.h (not among the sources). -/
structure FourVector where
  x0 : ℚ
  x1 : ℚ
  x2 : ℚ
  x3 : ℚ
deriving DecidableEq

def FourVector.zero : FourVector := ⟨0, 0, 0, 0⟩

def FourVector.add (a b : FourVector) : FourVector :=
  ⟨a.x0 + b.x0, a.x1 + b.x1, a.x2 + b.x2, a.x3 + b.x3⟩

def FourVector.sub (a b : FourVector) : FourVector :=
  ⟨a.x0 - b.x0, a.x1 - b.x1, a.x2 - b.x2, a.x3 - b.x3⟩

def FourVector.smul (a : FourVector) (c : ℚ) : FourVector :=
  ⟨a.x0 * c, a.x1 * c, a.x2 * c, a.x3 * c⟩

/-- Invariant square t² - x² - y² - z² (FourVector::sqr). -/
def FourVector.sqr (a : FourVector) : ℚ :=
  a.x0 * a.x0 - a.x1 * a.x1 - a.x2 * a.x2 - a.x3 * a.x3

def FourVector.threevec (a : FourVector) : ThreeVector := ⟨a.x1, a.x2, a.x3⟩

/-- Modelled from the spec: the DensityType enumeration listed in the
data model; density.h is not among the sources, but every member is
exercised by density_factor in density.cc. -/
inductive DensityType where
  | Hadron
  | Baryon
  | BaryonicIsospin
  | Pion
  | Isospin3_tot
  | Charge
  | Strangeness
  | None
deriving DecidableEq

/-- Modelled from the spec: the per-species classification record the
core reads (particletype.h / pdgcode.h are not among the sources); only
the accessors used by density.cc appear. -/
structure ParticleType where
  is_hadron : Bool
  is_baryon : Bool
  is_nucleus : Bool
  is_pion : Bool
  baryon_number : ℤ
  charge : ℤ
  strangeness : ℤ
  isospin3 : ℤ
  isospin3_rel : ℚ
deriving DecidableEq

/-- Modelled from the spec: the PdgCode classification invariant that a
species is a baryon exactly when its baryon number is nonzero
(pdgcode.h is not among the sources). -/
def ParticleType.WellFormed (t : ParticleType) : Prop :=
  t.is_baryon = true ↔ t.baryon_number ≠ 0

instance (t : ParticleType) : Decidable t.WellFormed := by
  unfold ParticleType.WellFormed; infer_instance

/-- The density-type selector from density.cc: per-species scalar
weight for each DensityType. -/
def density_factor (type : ParticleType) (dens_type : DensityType) : ℚ :=
  match dens_type with
  | DensityType.Hadron => if type.is_hadron then 1 else 0
  | DensityType.Baryon => (type.baryon_number : ℚ)
  | DensityType.BaryonicIsospin =>
      if type.is_baryon || type.is_nucleus then type.isospin3_rel else 0
  | DensityType.Pion => if type.is_pion then 1 else 0
  | DensityType.Isospin3_tot =>
      if type.is_hadron then (type.isospin3 : ℚ) else 0
  | DensityType.Charge => (type.charge : ℚ)
  | DensityType.Strangeness => (type.strangeness : ℚ)
  | DensityType.None => 0

/-- Modelled from the spec: the derivative-computation mode enumeration
held by DensityParameters (density.h is not among the sources). -/
inductive DerivativesMode where
  | CovariantGradient
  | FiniteDifference
  | Off
deriving DecidableEq

/-- Modelled from the spec: DensityParameters (density.h is not among
the sources) holds the cutoff radius (exposed squared), the Gaussian
smearing width sigma (exposed as the precomputed 1/(2 sigma²)), the
normalization factor for smeared sums (stored; its derivation from
sigma and the test-particle number is outside this core), and the
derivative mode. -/
structure DensityParameters where
  sigma : ℚ
  r_cut : ℚ
  norm_factor_sf : ℚ
  derivatives : DerivativesMode
deriving DecidableEq

/-- Accessor r_cut_sqr: the squared cutoff radius, precomputed in the
constructor. -/
def DensityParameters.r_cut_sqr (par : DensityParameters) : ℚ :=
  par.r_cut * par.r_cut

/-- Accessor two_sig_sqr_inv: 1/(2 sigma²), precomputed in the
constructor. -/
def DensityParameters.two_sig_sqr_inv (par : DensityParameters) : ℚ :=
  1 / (2 * par.sigma ^ 2)

/-- The geometric kernel from density.cc: unnormalized smearing factor
and (optionally) its gradient. `expf` stands for std::exp. -/
def unnormalized_smearing_factor (expf : ℚ → ℚ) (r : ThreeVector)
    (p : FourVector) (m_inv : ℚ) (dens_par : DensityParameters)
    (compute_gradient : Bool) : ℚ × ThreeVector :=
  let r_sqr := r.sqr
  if dens_par.r_cut_sqr < r_sqr then (0, ThreeVector.zero)
  else
    let u := p.smul m_inv
    let u_r_scalar := r.dot u.threevec
    let r_rest_sqr := r_sqr + u_r_scalar * u_r_scalar
    if dens_par.r_cut_sqr < r_rest_sqr then (0, ThreeVector.zero)
    else
      let sf := expf (-r_rest_sqr * dens_par.two_sig_sqr_inv) * u.x0
      let sf_grad :=
        if compute_gradient then
          (r.add (u.threevec.smul u_r_scalar)).smul
            (sf * dens_par.two_sig_sqr_inv * 2)
        else ThreeVector.zero
      (sf, sf_grad)

/-- Modelled from the spec: the per-particle snapshot consumed by the
core (particledata.h is not among the sources): species type,
four-momentum, four-position. -/
structure ParticleData where
  type : ParticleType
  momentum : FourVector
  position : FourVector
deriving DecidableEq

/-- The running state of the accumulation loop in current_eckart_impl:
the positive and negative four-current sums and the four
derivative-bucket four-vectors djmu_dx[0..3]. -/
structure EckartState where
  jmu_pos : FourVector
  jmu_neg : FourVector
  djmu_dx0 : FourVector
  djmu_dx1 : FourVector
  djmu_dx2 : FourVector
  djmu_dx3 : FourVector
deriving DecidableEq

def EckartState.init : EckartState :=
  ⟨FourVector.zero, FourVector.zero, FourVector.zero, FourVector.zero,
   FourVector.zero, FourVector.zero⟩

/-- One iteration of the loop body of current_eckart_impl in
density.cc, transliterated: guards on the density-type weight and the
invariant mass, kernel invocation, sign-routed accumulation into
jmu_pos / jmu_neg, and the optional gradient-bucket updates (the k-loop
over the three spatial axes is unrolled). `sqrtf` stands for the square
root inside FourVector::abs. -/
def eckartStep (expf sqrtf : ℚ → ℚ) (r : ThreeVector)
    (par : DensityParameters) (dens_type : DensityType)
    (compute_gradient smearing : Bool) (st : EckartState)
    (p : ParticleData) : EckartState :=
  let dens_factor := density_factor p.type dens_type
  if |dens_factor| < really_small then st
  else
    let mom := p.momentum
    let m := sqrtf mom.sqr
    if m < really_small then st
    else
      let m_inv := 1 / m
      let sf_and_grad := unnormalized_smearing_factor expf
        (p.position.threevec.sub r) mom m_inv par compute_gradient
      let tmp := mom.smul (dens_factor / mom.x0)
      let st1 :=
        if smearing then
          if 0 < dens_factor then
            { st with jmu_pos := st.jmu_pos.add (tmp.smul sf_and_grad.1) }
          else
            { st with jmu_neg := st.jmu_neg.add (tmp.smul sf_and_grad.1) }
        else
          if 0 < dens_factor then
            { st with jmu_pos := st.jmu_pos.add tmp }
          else
            { st with jmu_neg := st.jmu_neg.add tmp }
      if compute_gradient then
        let g := sf_and_grad.2
        { st1 with
          djmu_dx1 := st1.djmu_dx1.add (tmp.smul g.x1)
          djmu_dx2 := st1.djmu_dx2.add (tmp.smul g.x2)
          djmu_dx3 := st1.djmu_dx3.add (tmp.smul g.x3)
          djmu_dx0 :=
            ((st1.djmu_dx0.sub
                (tmp.smul (g.x1 * tmp.x1 / dens_factor))).sub
                (tmp.smul (g.x2 * tmp.x2 / dens_factor))).sub
                (tmp.smul (g.x3 * tmp.x3 / dens_factor)) }
      else st1

/-- current_eckart_impl from density.cc: fold the loop body over the
particle list, then form the Eckart density from the invariant norms of
the two partial currents, the combined four-current, and the three
derivative outputs. Returns the 5-tuple (rho_eck, jmu, rho_grad,
dj_dt, j_rot). -/
def current_eckart (expf sqrtf : ℚ → ℚ) (r : ThreeVector)
    (plist : List ParticleData) (par : DensityParameters)
    (dens_type : DensityType) (compute_gradient smearing : Bool) :
    ℚ × FourVector × ThreeVector × ThreeVector × ThreeVector :=
  let st := plist.foldl
    (eckartStep expf sqrtf r par dens_type compute_gradient smearing)
    EckartState.init
  let rho_eck :=
    (sqrtf st.jmu_pos.sqr - sqrtf st.jmu_neg.sqr) * par.norm_factor_sf
  let dj_dt :=
    if compute_gradient then st.djmu_dx0.threevec.smul par.norm_factor_sf
    else ThreeVector.zero
  let j_rot :=
    if compute_gradient then
      (ThreeVector.mk (st.djmu_dx2.x3 - st.djmu_dx3.x2)
        (st.djmu_dx3.x1 - st.djmu_dx1.x3)
        (st.djmu_dx1.x2 - st.djmu_dx2.x1)).smul par.norm_factor_sf
    else ThreeVector.zero
  let rho_grad :=
    if compute_gradient then
      ThreeVector.mk (st.djmu_dx1.x0 * par.norm_factor_sf)
        (st.djmu_dx2.x0 * par.norm_factor_sf)
        (st.djmu_dx3.x0 * par.norm_factor_sf)
    else ThreeVector.zero
  (rho_eck, (st.jmu_pos.add st.jmu_neg).smul par.norm_factor_sf,
    rho_grad, dj_dt, j_rot)

theorem FourVector.add_zero (a : FourVector) : a.add FourVector.zero = a := by
  cases a; simp [FourVector.add, FourVector.zero]

theorem FourVector.zero_add (a : FourVector) : FourVector.zero.add a = a := by
  cases a; simp [FourVector.add, FourVector.zero]

theorem FourVector.add_assoc (a b c : FourVector) :
    (a.add b).add c = a.add (b.add c) := by
  cases a; cases b; cases c; simp [FourVector.add]; ring_nf; simp

/-- The four-vector a single particle contributes to its running sum in
one loop iteration of current_eckart_impl: zero when one of the two
skip-guards fires, otherwise tmp = momentum * (weight / energy), scaled
by the kernel weight exactly when smearing is requested. -/
def eckartContribution (expf sqrtf : ℚ → ℚ) (r : ThreeVector)
    (par : DensityParameters) (dens_type : DensityType)
    (compute_gradient smearing : Bool) (p : ParticleData) : FourVector :=
  let f := density_factor p.type dens_type
  if |f| < really_small then FourVector.zero
  else
    let m := sqrtf p.momentum.sqr
    if m < really_small then FourVector.zero
    else
      let tmp := p.momentum.smul (f / p.momentum.x0)
      if smearing then
        tmp.smul (unnormalized_smearing_factor expf
          (p.position.threevec.sub r) p.momentum (1 / m) par
          compute_gradient).1
      else tmp

/-- Sum of the contributions of the particles whose density-type weight
is positive, in list order. -/
def jmuPosSum (expf sqrtf : ℚ → ℚ) (r : ThreeVector)
    (par : DensityParameters) (dens_type : DensityType)
    (compute_gradient smearing : Bool) : List ParticleData → FourVector
  | [] => FourVector.zero
  | p :: ps =>
      FourVector.add
        (if 0 < density_factor p.type dens_type then
          eckartContribution expf sqrtf r par dens_type compute_gradient
            smearing p
         else FourVector.zero)
        (jmuPosSum expf sqrtf r par dens_type compute_gradient smearing ps)

/-- Sum of the contributions of the particles whose density-type weight
is not positive, in list order. -/
def jmuNegSum (expf sqrtf : ℚ → ℚ) (r : ThreeVector)
    (par : DensityParameters) (dens_type : DensityType)
    (compute_gradient smearing : Bool) : List ParticleData → FourVector
  | [] => FourVector.zero
  | p :: ps =>
      FourVector.add
        (if 0 < density_factor p.type dens_type then FourVector.zero
         else
          eckartContribution expf sqrtf r par dens_type compute_gradient
            smearing p)
        (jmuNegSum expf sqrtf r par dens_type compute_gradient smearing ps)

theorem eckartStep_jmu_pos (expf sqrtf : ℚ → ℚ) (r : ThreeVector)
    (par : DensityParameters) (dens_type : DensityType)
    (cg sm : Bool) (st : EckartState) (p : ParticleData) :
    (eckartStep expf sqrtf r par dens_type cg sm st p).jmu_pos =
      st.jmu_pos.add
        (if 0 < density_factor p.type dens_type then
          eckartContribution expf sqrtf r par dens_type cg sm p
         else FourVector.zero) := by
  simp only [eckartStep, eckartContribution]
  split_ifs <;> simp_all [FourVector.add_zero]

theorem eckartStep_jmu_neg (expf sqrtf : ℚ → ℚ) (r : ThreeVector)
    (par : DensityParameters) (dens_type : DensityType)
    (cg sm : Bool) (st : EckartState) (p : ParticleData) :
    (eckartStep expf sqrtf r par dens_type cg sm st p).jmu_neg =
      st.jmu_neg.add
        (if 0 < density_factor p.type dens_type then FourVector.zero
         else eckartContribution expf sqrtf r par dens_type cg sm p) := by
  simp only [eckartStep, eckartContribution]
  split_ifs <;> simp_all [FourVector.add_zero]

theorem foldl_eckartStep_jmu_pos (expf sqrtf : ℚ → ℚ) (r : ThreeVector)
    (par : DensityParameters) (dens_type : DensityType) (cg sm : Bool)
    (l : List ParticleData) :
    ∀ st : EckartState,
      (l.foldl (eckartStep expf sqrtf r par dens_type cg sm) st).jmu_pos =
        st.jmu_pos.add
          (jmuPosSum expf sqrtf r par dens_type cg sm l) := by
  induction l with
  | nil => intro st; simp [jmuPosSum, FourVector.add_zero]
  | cons p ps ih =>
      intro st
      simp only [List.foldl_cons, jmuPosSum]
      rw [ih, eckartStep_jmu_pos, FourVector.add_assoc]

theorem foldl_eckartStep_jmu_neg (expf sqrtf : ℚ → ℚ) (r : ThreeVector)
    (par : DensityParameters) (dens_type : DensityType) (cg sm : Bool)
    (l : List ParticleData) :
    ∀ st : EckartState,
      (l.foldl (eckartStep expf sqrtf r par dens_type cg sm) st).jmu_neg =
        st.jmu_neg.add
          (jmuNegSum expf sqrtf r par dens_type cg sm l) := by
  induction l with
  | nil => intro st; simp [jmuNegSum, FourVector.add_zero]
  | cons p ps ih =>
      intro st
      simp only [List.foldl_cons, jmuNegSum]
      rw [ih, eckartStep_jmu_neg, FourVector.add_assoc]

/-- Claim C1: in current_eckart each per-particle contribution
tmp = momentum * (weight/energy) — multiplied by the kernel weight when
smearing is requested, taken directly otherwise — is accumulated into
the positive running four-vector sum when the density-type weight is
positive and into the negative sum otherwise; after the loop the scalar
Eckart density equals (invariant norm of the positive sum minus
invariant norm of the negative sum) times the normalization factor, and
the returned combined four-current equals (positive sum plus negative
sum) times the normalization factor, for every particle list, field
point, density type and flag setting. -/
theorem current_eckart_decomposition (expf sqrtf : ℚ → ℚ)
    (r : ThreeVector) (plist : List ParticleData)
    (par : DensityParameters) (dens_type : DensityType)
    (compute_gradient smearing : Bool) :
    (current_eckart expf sqrtf r plist par dens_type compute_gradient
        smearing).1 =
      (sqrtf (jmuPosSum expf sqrtf r par dens_type compute_gradient
          smearing plist).sqr -
        sqrtf (jmuNegSum expf sqrtf r par dens_type compute_gradient
          smearing plist).sqr) * par.norm_factor_sf ∧
    (current_eckart expf sqrtf r plist par dens_type compute_gradient
        smearing).2.1 =
      ((jmuPosSum expf sqrtf r par dens_type compute_gradient smearing
          plist).add
        (jmuNegSum expf sqrtf r par dens_type compute_gradient smearing
          plist)).smul par.norm_factor_sf := by
  constructor <;>
    simp only [current_eckart, foldl_eckartStep_jmu_pos,
      foldl_eckartStep_jmu_neg, EckartState.init, FourVector.zero_add]

theorem smearing_scalar_aux (s x : ℚ) : s * (1 / (2 * x ^ 2)) * 2 = s / x ^ 2 := by
  rcases eq_or_ne x 0 with h | h
  · simp [h]
  · field_simp; ring

theorem smearing_arg_aux (a x : ℚ) : -a * (1 / (2 * x ^ 2)) = -(a / (2 * x ^ 2)) := by
  ring

/-- Claim C2: for every relative position r, four-momentum p, inverse
mass 1/m, density parameters and gradient flag, the geometric kernel
returns weight 0 and the zero gradient whenever r·r exceeds the squared
cutoff (without consulting p or m) or whenever the Lorentz-contracted
rest-frame distance r_rest² = r·r + (r·u_spatial)² exceeds the squared
cutoff; otherwise it returns weight exp(-r_rest²/(2 sigma²)) * u_t and,
when the gradient flag is set, the gradient
weight * (r + u_spatial * u_r) / sigma² (the zero gradient when the
flag is not set). -/
theorem unnormalized_smearing_factor_spec (expf : ℚ → ℚ)
    (r : ThreeVector) (p : FourVector) (m_inv : ℚ)
    (par : DensityParameters) (compute_gradient : Bool) :
    unnormalized_smearing_factor expf r p m_inv par compute_gradient =
      if par.r_cut_sqr < r.sqr then (0, ThreeVector.zero)
      else
        if par.r_cut_sqr <
            r.sqr + r.dot (p.smul m_inv).threevec *
              r.dot (p.smul m_inv).threevec then
          (0, ThreeVector.zero)
        else
          (expf (-((r.sqr + r.dot (p.smul m_inv).threevec *
                r.dot (p.smul m_inv).threevec) / (2 * par.sigma ^ 2))) *
              (p.smul m_inv).x0,
            if compute_gradient then
              (r.add ((p.smul m_inv).threevec.smul
                  (r.dot (p.smul m_inv).threevec))).smul
                ((expf (-((r.sqr + r.dot (p.smul m_inv).threevec *
                      r.dot (p.smul m_inv).threevec) /
                    (2 * par.sigma ^ 2))) * (p.smul m_inv).x0) /
                  par.sigma ^ 2)
            else ThreeVector.zero) := by
  simp only [unnormalized_smearing_factor,
    DensityParameters.two_sig_sqr_inv, smearing_arg_aux,
    smearing_scalar_aux]

/-- Claim C3: for every species and DensityType, density_factor is a
pure total function returning exactly: 1 for a hadron under Hadron and
0 otherwise; the integer baryon number under Baryon (hence 0 for a
non-baryon species); the relative isospin-3 under BaryonicIsospin when
the species is a baryon or nucleus-class and 0 otherwise; 1 under Pion
exactly when the species is a pion; the absolute isospin-3 under
Isospin3_tot for a hadron and 0 otherwise; the electric charge under
Charge; the strangeness under Strangeness; and 0 under the remaining
tag None. Totality holds by construction: density_factor is a total
Lean function over the whole species domain. -/
theorem density_factor_cases (t : ParticleType) (hwf : t.WellFormed) :
    density_factor t DensityType.Hadron =
      (if t.is_hadron then 1 else 0) ∧
    density_factor t DensityType.Baryon = (t.baryon_number : ℚ) ∧
    (t.is_baryon = false → density_factor t DensityType.Baryon = 0) ∧
    density_factor t DensityType.BaryonicIsospin =
      (if t.is_baryon || t.is_nucleus then t.isospin3_rel else 0) ∧
    (density_factor t DensityType.Pion = 1 ↔ t.is_pion = true) ∧
    density_factor t DensityType.Isospin3_tot =
      (if t.is_hadron then (t.isospin3 : ℚ) else 0) ∧
    density_factor t DensityType.Charge = (t.charge : ℚ) ∧
    density_factor t DensityType.Strangeness = (t.strangeness : ℚ) ∧
    density_factor t DensityType.None = 0 := by
  refine ⟨rfl, rfl, ?_, rfl, ?_, rfl, rfl, rfl, rfl⟩
  · intro hb
    have hz : t.baryon_number = 0 := by
      by_contra hne
      have := hwf.mpr hne
      rw [hb] at this
      exact Bool.false_ne_true this
    simp [density_factor, hz]
  · cases hp : t.is_pion <;> simp [density_factor, hp]

/-- A concrete well-formed species record (a proton-like baryon), used
as the evaluation point of the selector theorem. -/
def protonType : ParticleType :=
  ⟨true, true, false, false, 1, 1, 0, 1, 1 / 2⟩

theorem density_factor_cases_witness :
    ParticleType.WellFormed protonType ∧
      density_factor protonType DensityType.Baryon =
        (protonType.baryon_number : ℚ) :=
  ⟨by decide, (density_factor_cases protonType (by decide)).2.1⟩

/-- A concrete positively charged pion-like species. -/
def piPlusType : ParticleType :=
  ⟨true, false, false, true, 0, 1, 0, 2, 0⟩

/-- A concrete negatively charged pion-like species. -/
def piMinusType : ParticleType :=
  ⟨true, false, false, true, 0, -1, 0, -2, 0⟩

/-- Two particles of equal and opposite charge flying back to back
along the z axis, both located at the origin. -/
def backToBackPair : List ParticleData :=
  [⟨piPlusType, ⟨5, 0, 0, 3⟩, ⟨0, 0, 0, 0⟩⟩,
   ⟨piMinusType, ⟨5, 0, 0, -3⟩, ⟨0, 0, 0, 0⟩⟩]

/-- Claim C4 as stated is false on the code: for the symmetric
back-to-back ensemble of equal-magnitude opposite-sign charges, the
Eckart scalar density returned by current_eckart is 0, not strictly
positive (here evaluated at the origin with unit normalization; the
result is independent of the square-root model because the two partial
currents have identical invariant squares). -/
theorem back_to_back_density_not_positive :
    ¬ (0 < (current_eckart (fun _ => 1) (fun q => q) ⟨0, 0, 0⟩
        backToBackPair ⟨1, 4, 1, DerivativesMode.CovariantGradient⟩
        DensityType.Charge false true).1) := by
  norm_num [current_eckart, eckartStep, unnormalized_smearing_factor, jmuPosSum,
    jmuNegSum, eckartContribution, backToBackPair, piPlusType, piMinusType,
    EckartState.init, really_small, density_factor,
    DensityParameters.r_cut_sqr, DensityParameters.two_sig_sqr_inv,
    ThreeVector.zero, ThreeVector.add, ThreeVector.sub, ThreeVector.smul,
    ThreeVector.dot, ThreeVector.sqr, FourVector.zero, FourVector.add,
    FourVector.sub, FourVector.smul, FourVector.sqr, FourVector.threevec]

/-- Claim C4 amended: for the symmetric back-to-back ensemble of
equal-magnitude opposite-sign charges, the time component of the
combined four-current cancels while its spatial part does not, the
combined current is space-like (its invariant square is negative, so a
naive invariant norm of it would be undefined), both partial sums are
time-like (positive invariant squares), and the Eckart scalar density
is well defined and equals zero — it is not strictly positive. -/
theorem back_to_back_density_zero :
    (current_eckart (fun _ => 1) (fun q => q) ⟨0, 0, 0⟩ backToBackPair
        ⟨1, 4, 1, DerivativesMode.CovariantGradient⟩ DensityType.Charge
        false true).1 = 0 ∧
    (current_eckart (fun _ => 1) (fun q => q) ⟨0, 0, 0⟩ backToBackPair
        ⟨1, 4, 1, DerivativesMode.CovariantGradient⟩ DensityType.Charge
        false true).2.1.x0 = 0 ∧
    (current_eckart (fun _ => 1) (fun q => q) ⟨0, 0, 0⟩ backToBackPair
        ⟨1, 4, 1, DerivativesMode.CovariantGradient⟩ DensityType.Charge
        false true).2.1.x3 ≠ 0 ∧
    (current_eckart (fun _ => 1) (fun q => q) ⟨0, 0, 0⟩ backToBackPair
        ⟨1, 4, 1, DerivativesMode.CovariantGradient⟩ DensityType.Charge
        false true).2.1.sqr < 0 ∧
    0 < (jmuPosSum (fun _ => 1) (fun q => q) ⟨0, 0, 0⟩
        ⟨1, 4, 1, DerivativesMode.CovariantGradient⟩ DensityType.Charge
        false true backToBackPair).sqr ∧
    0 < (jmuNegSum (fun _ => 1) (fun q => q) ⟨0, 0, 0⟩
        ⟨1, 4, 1, DerivativesMode.CovariantGradient⟩ DensityType.Charge
        false true backToBackPair).sqr := by
  norm_num [current_eckart, eckartStep, unnormalized_smearing_factor, jmuPosSum,
    jmuNegSum, eckartContribution, backToBackPair, piPlusType, piMinusType,
    EckartState.init, really_small, density_factor,
    DensityParameters.r_cut_sqr, DensityParameters.two_sig_sqr_inv,
    ThreeVector.zero, ThreeVector.add, ThreeVector.sub, ThreeVector.smul,
    ThreeVector.dot, ThreeVector.sqr, FourVector.zero, FourVector.add,
    FourVector.sub, FourVector.smul, FourVector.sqr, FourVector.threevec]

/-- Claim C5 as stated is false on the code: a particle whose squared
distance to the field point equals the squared cutoff exactly is NOT
excluded — the strict comparisons let it through and the kernel returns
a nonzero weight (here r·r = r_cut² = 16 for a particle at rest). -/
theorem boundary_weight_nonzero :
    (⟨4, 0, 0⟩ : ThreeVector).sqr =
      (⟨1, 4, 1, DerivativesMode.CovariantGradient⟩ :
        DensityParameters).r_cut_sqr ∧
    (unnormalized_smearing_factor (fun _ => 1) ⟨4, 0, 0⟩ ⟨1, 0, 0, 0⟩ 1
        ⟨1, 4, 1, DerivativesMode.CovariantGradient⟩ false).1 ≠ 0 := by
  constructor <;>
    norm_num [current_eckart, eckartStep, unnormalized_smearing_factor, jmuPosSum,
    jmuNegSum, eckartContribution, backToBackPair, piPlusType, piMinusType,
    EckartState.init, really_small, density_factor,
    DensityParameters.r_cut_sqr, DensityParameters.two_sig_sqr_inv,
    ThreeVector.zero, ThreeVector.add, ThreeVector.sub, ThreeVector.smul,
    ThreeVector.dot, ThreeVector.sqr, FourVector.zero, FourVector.add,
    FourVector.sub, FourVector.smul, FourVector.sqr, FourVector.threevec]

/-- Claim C5 amended: a particle exactly at the cutoff boundary is
included, not excluded — when the lab-frame squared distance is within
the cutoff and the rest-frame squared distance equals the squared
cutoff exactly, the kernel returns the full Gaussian weight
exp(-r_cut² / (2 sigma²)) * u_t; the cutoff comparisons are strict, so
only strictly larger distances yield weight 0. -/
theorem boundary_particle_included (expf : ℚ → ℚ) (r : ThreeVector)
    (p : FourVector) (m_inv : ℚ) (par : DensityParameters) (cg : Bool)
    (h1 : r.sqr ≤ par.r_cut_sqr)
    (h2 : r.sqr + r.dot (p.smul m_inv).threevec *
        r.dot (p.smul m_inv).threevec = par.r_cut_sqr) :
    (unnormalized_smearing_factor expf r p m_inv par cg).1 =
      expf (-par.r_cut_sqr * par.two_sig_sqr_inv) * (p.smul m_inv).x0 := by
  have hb1 : ¬ par.r_cut_sqr < r.sqr := not_lt.mpr h1
  have hb2 : ¬ par.r_cut_sqr <
      r.sqr + r.dot (p.smul m_inv).threevec *
        r.dot (p.smul m_inv).threevec := by
    rw [h2]
    exact lt_irrefl _
  simp only [unnormalized_smearing_factor, hb1, hb2, if_false, h2,
    ite_false, lt_self_iff_false]

theorem boundary_particle_included_witness :
    ((⟨4, 0, 0⟩ : ThreeVector).sqr ≤
      (⟨1, 4, 1, DerivativesMode.CovariantGradient⟩ :
        DensityParameters).r_cut_sqr) ∧
    ((⟨4, 0, 0⟩ : ThreeVector).sqr +
        ThreeVector.dot ⟨4, 0, 0⟩
            (FourVector.threevec (FourVector.smul ⟨1, 0, 0, 0⟩ 1)) *
          ThreeVector.dot ⟨4, 0, 0⟩
            (FourVector.threevec (FourVector.smul ⟨1, 0, 0, 0⟩ 1)) =
      (⟨1, 4, 1, DerivativesMode.CovariantGradient⟩ :
        DensityParameters).r_cut_sqr) ∧
    (unnormalized_smearing_factor (fun q => q) ⟨4, 0, 0⟩ ⟨1, 0, 0, 0⟩ 1
        ⟨1, 4, 1, DerivativesMode.CovariantGradient⟩ false).1 =
      (fun q => q)
          (-(⟨1, 4, 1, DerivativesMode.CovariantGradient⟩ :
              DensityParameters).r_cut_sqr *
            (⟨1, 4, 1, DerivativesMode.CovariantGradient⟩ :
              DensityParameters).two_sig_sqr_inv) *
        (FourVector.smul ⟨1, 0, 0, 0⟩ 1).x0 :=
  ⟨by norm_num [ThreeVector.sqr, ThreeVector.dot,
      DensityParameters.r_cut_sqr],
    by norm_num [ThreeVector.sqr, ThreeVector.dot, FourVector.smul,
      FourVector.threevec, DensityParameters.r_cut_sqr],
    boundary_particle_included (fun q => q) ⟨4, 0, 0⟩ ⟨1, 0, 0, 0⟩ 1
      ⟨1, 4, 1, DerivativesMode.CovariantGradient⟩ false
      (by norm_num [ThreeVector.sqr, ThreeVector.dot,
        DensityParameters.r_cut_sqr])
      (by norm_num [ThreeVector.sqr, ThreeVector.dot, FourVector.smul,
        FourVector.threevec, DensityParameters.r_cut_sqr])⟩

/-- Claim C6: under the precondition that the particle carries a
physical four-momentum (its energy is at least its invariant mass),
every divisor used in the per-particle loop of current_eckart — the
invariant mass, the energy component, and the density-type weight
(divided by in the gradient accumulation) — has magnitude at least
really_small once the two skip-guards have let the particle through,
so none of the divisions is by (near-)zero; the function itself is a
total Lean function, so it never faults. -/
theorem eckart_divisors_bounded (sqrtf : ℚ → ℚ) (p : ParticleData)
    (dens_type : DensityType)
    (hE : sqrtf p.momentum.sqr ≤ p.momentum.x0)
    (hf : ¬ |density_factor p.type dens_type| < really_small)
    (hm : ¬ sqrtf p.momentum.sqr < really_small) :
    really_small ≤ |density_factor p.type dens_type| ∧
    really_small ≤ sqrtf p.momentum.sqr ∧
    really_small ≤ p.momentum.x0 ∧
    density_factor p.type dens_type ≠ 0 ∧
    sqrtf p.momentum.sqr ≠ 0 ∧
    p.momentum.x0 ≠ 0 := by
  push_neg at hf hm
  have hpos : (0 : ℚ) < really_small := by norm_num [really_small]
  have hm0 : (0 : ℚ) < sqrtf p.momentum.sqr := lt_of_lt_of_le hpos hm
  have hE0 : (0 : ℚ) < p.momentum.x0 := lt_of_lt_of_le hm0 hE
  exact ⟨hf, hm, le_trans hm hE,
    abs_pos.mp (lt_of_lt_of_le hpos hf), hm0.ne', hE0.ne'⟩

theorem eckart_divisors_bounded_witness :
    ((fun q => q) (ParticleData.mk piPlusType ⟨1, 0, 0, 0⟩
        ⟨0, 0, 0, 0⟩).momentum.sqr ≤
      (ParticleData.mk piPlusType ⟨1, 0, 0, 0⟩ ⟨0, 0, 0, 0⟩).momentum.x0) ∧
    (¬ |density_factor (ParticleData.mk piPlusType ⟨1, 0, 0, 0⟩
        ⟨0, 0, 0, 0⟩).type DensityType.Charge| < really_small) ∧
    (¬ (fun q => q) (ParticleData.mk piPlusType ⟨1, 0, 0, 0⟩
        ⟨0, 0, 0, 0⟩).momentum.sqr < really_small) ∧
    really_small ≤ (ParticleData.mk piPlusType ⟨1, 0, 0, 0⟩
        ⟨0, 0, 0, 0⟩).momentum.x0 := by
  have hE : (fun q => q) (ParticleData.mk piPlusType ⟨1, 0, 0, 0⟩
      ⟨0, 0, 0, 0⟩).momentum.sqr ≤
      (ParticleData.mk piPlusType ⟨1, 0, 0, 0⟩ ⟨0, 0, 0, 0⟩).momentum.x0 := by
    norm_num [FourVector.sqr]
  have hf : ¬ |density_factor (ParticleData.mk piPlusType ⟨1, 0, 0, 0⟩
      ⟨0, 0, 0, 0⟩).type DensityType.Charge| < really_small := by
    norm_num [density_factor, piPlusType, really_small]
  have hm : ¬ (fun q => q) (ParticleData.mk piPlusType ⟨1, 0, 0, 0⟩
      ⟨0, 0, 0, 0⟩).momentum.sqr < really_small := by
    norm_num [FourVector.sqr, really_small]
  exact ⟨hE, hf, hm,
    (eckart_divisors_bounded (fun q => q)
      (ParticleData.mk piPlusType ⟨1, 0, 0, 0⟩ ⟨0, 0, 0, 0⟩)
      DensityType.Charge hE hf hm).2.2.1⟩

/-- Claim C7: on the empty particle collection current_eckart returns
all-zero outputs — Eckart density 0, zero four-current and zero vectors
for the density gradient, the current time-derivative and the current
curl — for every field point, parameters, density type and flag
combination (and, being a total function, raises nothing); moreover for
any particle list the three derivative outputs are zero vectors
whenever gradients are not requested. -/
theorem current_eckart_empty_and_no_gradient (expf sqrtf : ℚ → ℚ)
    (r : ThreeVector) (par : DensityParameters) (dens_type : DensityType)
    (compute_gradient smearing : Bool) (plist : List ParticleData) :
    current_eckart expf sqrtf r [] par dens_type compute_gradient
        smearing =
      (0, FourVector.zero, ThreeVector.zero, ThreeVector.zero,
        ThreeVector.zero) ∧
    (current_eckart expf sqrtf r plist par dens_type false
        smearing).2.2.1 = ThreeVector.zero ∧
    (current_eckart expf sqrtf r plist par dens_type false
        smearing).2.2.2.1 = ThreeVector.zero ∧
    (current_eckart expf sqrtf r plist par dens_type false
        smearing).2.2.2.2 = ThreeVector.zero := by
  refine ⟨?_, ?_, ?_, ?_⟩ <;>
    simp [current_eckart, EckartState.init, FourVector.zero,
      FourVector.add, FourVector.smul, FourVector.sqr,
      FourVector.threevec, ThreeVector.zero, ThreeVector.smul,
      Prod.ext_iff]

/-- Modelled from the spec: the lattice update-trigger tag compared by
update_lattice (lattice.h is not among the sources). -/
inductive LatticeUpdate where
  | AtOutput
  | EveryTimestep
  | EveryFixedInterval
deriving DecidableEq

/-- Modelled from the spec: the per-node lattice storage
DensityOnLattice (density.h is not among the sources): a net
four-current and the four stored derivative four-vectors that
overwrite_djmu_dxnu replaces. -/
structure DensityOnLattice where
  jmu_net : FourVector
  djmu_dxnu0 : FourVector
  djmu_dxnu1 : FourVector
  djmu_dxnu2 : FourVector
  djmu_dxnu3 : FourVector
deriving DecidableEq

def DensityOnLattice.overwrite_djmu_dxnu (node : DensityOnLattice)
    (d0 d1 d2 d3 : FourVector) : DensityOnLattice :=
  { node with
    djmu_dxnu0 := d0
    djmu_dxnu1 := d1
    djmu_dxnu2 := d2
    djmu_dxnu3 := d3 }

/-- Modelled from the spec: the lattice storage provider — a fixed-size
node store with an update-trigger tag; nodes are kept as a list in node
order. -/
structure RectangularLattice (α : Type) where
  when_update : LatticeUpdate
  cells : List α
deriving DecidableEq

/-- A four-component gradient tensor per lattice node. -/
structure FourGradient where
  d0 : FourVector
  d1 : FourVector
  d2 : FourVector
  d3 : FourVector
deriving DecidableEq

/-- The finite-difference update_lattice overload of density.cc,
transliterated with explicit state passing: the guard is from the
source; the delegated collaborators — the per-node accumulation
overload of update_lattice (not among the sources) and the
finite-difference four-gradient computation of the lattice storage
provider — are passed in as the function parameters `update_core` and
`compute_fg`. Returns the four (possibly updated) lattices. -/
def update_lattice
    (update_core : RectangularLattice DensityOnLattice → DensityType →
      DensityParameters → List (List ParticleData) → Bool →
      RectangularLattice DensityOnLattice)
    (compute_fg : RectangularLattice FourVector →
      RectangularLattice FourVector → ℚ →
      RectangularLattice FourGradient → RectangularLattice FourGradient)
    (lat : Option (RectangularLattice DensityOnLattice))
    (old_jmu new_jmu : RectangularLattice FourVector)
    (four_grad_lattice : RectangularLattice FourGradient)
    (update : LatticeUpdate) (dens_type : DensityType)
    (par : DensityParameters) (ensembles : List (List ParticleData))
    (time_step : ℚ) (compute_gradient : Bool) :
    Option (RectangularLattice DensityOnLattice) ×
      RectangularLattice FourVector × RectangularLattice FourVector ×
      RectangularLattice FourGradient :=
  match lat with
  | Option.none => (Option.none, old_jmu, new_jmu, four_grad_lattice)
  | Option.some l =>
    if l.when_update ≠ update then
      (Option.some l, old_jmu, new_jmu, four_grad_lattice)
    else
      let old2 :=
        if par.derivatives = DerivativesMode.FiniteDifference then
          { old_jmu with
            cells := l.cells.map (fun node => node.jmu_net) }
        else old_jmu
      let l2 := update_core l dens_type par ensembles compute_gradient
      if par.derivatives = DerivativesMode.FiniteDifference then
        let new2 :=
          { new_jmu with
            cells := l2.cells.map (fun node => node.jmu_net) }
        let fg2 := compute_fg new2 old2 time_step four_grad_lattice
        let l3 :=
          { l2 with
            cells := (l2.cells.zip fg2.cells).map (fun pr =>
              pr.1.overwrite_djmu_dxnu pr.2.d0 pr.2.d1 pr.2.d2 pr.2.d3) }
        (Option.some l3, old2, new2, fg2)
      else (Option.some l2, old2, new_jmu, four_grad_lattice)

/-- Claim C8: calling update_lattice with a null primary lattice, or
with a lattice whose configured update-trigger tag differs from the
requested tag, returns immediately with every lattice unchanged (and,
being a total function, cannot crash), for every combination of the
remaining arguments. -/
theorem update_lattice_noop
    (update_core : RectangularLattice DensityOnLattice → DensityType →
      DensityParameters → List (List ParticleData) → Bool →
      RectangularLattice DensityOnLattice)
    (compute_fg : RectangularLattice FourVector →
      RectangularLattice FourVector → ℚ →
      RectangularLattice FourGradient → RectangularLattice FourGradient)
    (lat : Option (RectangularLattice DensityOnLattice))
    (old_jmu new_jmu : RectangularLattice FourVector)
    (four_grad_lattice : RectangularLattice FourGradient)
    (update : LatticeUpdate) (dens_type : DensityType)
    (par : DensityParameters) (ensembles : List (List ParticleData))
    (time_step : ℚ) (compute_gradient : Bool)
    (h : lat = Option.none ∨
      ∀ l, lat = Option.some l → l.when_update ≠ update) :
    update_lattice update_core compute_fg lat old_jmu new_jmu
        four_grad_lattice update dens_type par ensembles time_step
        compute_gradient =
      (lat, old_jmu, new_jmu, four_grad_lattice) := by
  cases lat with
  | none => rfl
  | some l =>
      rcases h with h | h
      · exact absurd h (Option.some_ne_none l)
      · have hne : l.when_update ≠ update := h l rfl
        simp [update_lattice, hne]

theorem update_lattice_noop_witness :
    ((Option.none :
        Option (RectangularLattice DensityOnLattice)) = Option.none ∨
      ∀ l, (Option.none :
          Option (RectangularLattice DensityOnLattice)) = Option.some l →
        l.when_update ≠ LatticeUpdate.AtOutput) ∧
    update_lattice (fun l _ _ _ _ => l) (fun _ _ _ fg => fg) Option.none
        ⟨LatticeUpdate.AtOutput, []⟩ ⟨LatticeUpdate.AtOutput, []⟩
        ⟨LatticeUpdate.AtOutput, []⟩ LatticeUpdate.AtOutput
        DensityType.Baryon ⟨1, 4, 1, DerivativesMode.FiniteDifference⟩
        [] 1 true =
      (Option.none, ⟨LatticeUpdate.AtOutput, []⟩,
        ⟨LatticeUpdate.AtOutput, []⟩, ⟨LatticeUpdate.AtOutput, []⟩) :=
  ⟨Or.inl rfl,
    update_lattice_noop (fun l _ _ _ _ => l) (fun _ _ _ fg => fg)
      Option.none ⟨LatticeUpdate.AtOutput, []⟩ ⟨LatticeUpdate.AtOutput, []⟩
      ⟨LatticeUpdate.AtOutput, []⟩ LatticeUpdate.AtOutput
      DensityType.Baryon ⟨1, 4, 1, DerivativesMode.FiniteDifference⟩
      [] 1 true (Or.inl rfl)⟩

/-- The stream output operator for DensityType from density.cc,
modelled as the label it writes: some label when a case of the switch
matches, none for the default branch, which sets the failbit of the
stream. -/
def densityTypeLabel (dens_type : DensityType) : Option String :=
  match dens_type with
  | DensityType.Hadron => Option.some "hadron density"
  | DensityType.Baryon => Option.some "baryon density"
  | DensityType.BaryonicIsospin => Option.some "baryonic isospin density"
  | DensityType.Pion => Option.some "pion density"
  | DensityType.Isospin3_tot => Option.some "total isospin3 density"
  | DensityType.None => Option.some "none"
  | _ => Option.none

/-- Claim C9 is violated by the code: Charge and Strangeness are values
of the DensityType enumeration, yet the output operator has no case for
them — they fall into the default branch, which writes no label and
sets the failbit, so the failure branch is reachable from inside the
enumeration. The other six values do get their canonical labels. -/
theorem densityTypeLabel_eval :
    densityTypeLabel DensityType.Charge = Option.none ∧
    densityTypeLabel DensityType.Strangeness = Option.none ∧
    densityTypeLabel DensityType.Hadron = Option.some "hadron density" ∧
    densityTypeLabel DensityType.Baryon = Option.some "baryon density" ∧
    densityTypeLabel DensityType.BaryonicIsospin =
      Option.some "baryonic isospin density" ∧
    densityTypeLabel DensityType.Pion = Option.some "pion density" ∧
    densityTypeLabel DensityType.Isospin3_tot =
      Option.some "total isospin3 density" ∧
    densityTypeLabel DensityType.None = Option.some "none" :=
  ⟨rfl, rfl, rfl, rfl, rfl, rfl, rfl, rfl⟩

/-- The loop body of current_eckart_impl specialized to
compute_gradient = false and smearing = false: the kernel call and the
gradient buckets drop out, leaving only the sign-routed accumulation of
tmp, which mentions neither the field point nor the parameters. -/
def eckartStepUnsmeared (sqrtf : ℚ → ℚ) (dens_type : DensityType)
    (st : EckartState) (p : ParticleData) : EckartState :=
  let dens_factor := density_factor p.type dens_type
  if |dens_factor| < really_small then st
  else
    let mom := p.momentum
    let m := sqrtf mom.sqr
    if m < really_small then st
    else
      let tmp := mom.smul (dens_factor / mom.x0)
      if 0 < dens_factor then
        { st with jmu_pos := st.jmu_pos.add tmp }
      else
        { st with jmu_neg := st.jmu_neg.add tmp }

theorem eckartStep_unsmeared_eq (expf sqrtf : ℚ → ℚ) (r : ThreeVector)
    (par : DensityParameters) (dens_type : DensityType) :
    eckartStep expf sqrtf r par dens_type false false =
      eckartStepUnsmeared sqrtf dens_type := by
  funext st p
  simp only [eckartStep, eckartStepUnsmeared, Bool.false_eq_true,
    if_false, ite_false]

/-- Claim C10: with smearing disabled and gradients not requested, the
output of current_eckart does not depend on the field point or on the
geometric smearing parameters — any two field points and any two
parameter records agreeing on the normalization factor (the cutoff
radius and smearing width may differ) yield identical 5-tuples, because
each surviving particle contributes tmp = momentum * (weight/energy)
unconditionally while the kernel weight is ignored. -/
theorem current_eckart_unsmeared_independent (expf sqrtf : ℚ → ℚ)
    (plist : List ParticleData) (dens_type : DensityType)
    (r1 r2 : ThreeVector) (par1 par2 : DensityParameters)
    (h : par1.norm_factor_sf = par2.norm_factor_sf) :
    current_eckart expf sqrtf r1 plist par1 dens_type false false =
      current_eckart expf sqrtf r2 plist par2 dens_type false false := by
  simp only [current_eckart, eckartStep_unsmeared_eq, h]

theorem current_eckart_unsmeared_independent_witness :
    ((⟨1, 4, 1, DerivativesMode.CovariantGradient⟩ :
        DensityParameters).norm_factor_sf =
      (⟨2, 9, 1, DerivativesMode.Off⟩ :
        DensityParameters).norm_factor_sf) ∧
    current_eckart (fun _ => 1) (fun q => q) ⟨0, 0, 0⟩ backToBackPair
        ⟨1, 4, 1, DerivativesMode.CovariantGradient⟩ DensityType.Charge
        false false =
      current_eckart (fun _ => 1) (fun q => q) ⟨5, 7, 9⟩ backToBackPair
        ⟨2, 9, 1, DerivativesMode.Off⟩ DensityType.Charge false false :=
  ⟨rfl,
    current_eckart_unsmeared_independent (fun _ => 1) (fun q => q)
      backToBackPair DensityType.Charge ⟨0, 0, 0⟩ ⟨5, 7, 9⟩
      ⟨1, 4, 1, DerivativesMode.CovariantGradient⟩
      ⟨2, 9, 1, DerivativesMode.Off⟩ rfl⟩

end Smash
